import Mathlib

/-
  Verification development for QuickGPT (src/main.py).

  The definitions below are a shallow embedding of the parts of main.py
  that the verified properties talk about: the hotkey-spec parser
  (parse_hotkey, VK_MAP), the conversation / display state carried by the
  QuickGPT application object, and the Qt slot handlers that mutate it
  (_handle_user_message, _ask_assistant, _on_reply, _on_error,
  _toggle_popup, SystemTray.toggle, _clear_chat, _on_model_changed,
  _save_history, _remove_last_system_placeholder, and the
  Escape / close-button path through ChatPopup).
-/

namespace QuickGPT

/-- Role tag of one chat turn, as stored in the "messages" list of
main.py (the dicts with a "role" field: "system", "user", "assistant"). -/
inductive Role where
  | system
  | user
  | assistant
  deriving DecidableEq

/-- One entry of the QuickGPT.messages list of main.py: a dict
with a role and a content string. -/
structure ChatTurn where
  role : Role
  content : String
  deriving DecidableEq

/-- Speaker tag of one display line, as stored in QuickGPT.transcript
of main.py (the strings "System", "You", "Assistant"). -/
inductive Speaker where
  | System
  | You
  | Assistant
  deriving DecidableEq, BEq

/- ----------------------------------------------------------------
   Hotkey parsing (main.py lines 43-58 and 70-85)
   ---------------------------------------------------------------- -/

/-- MOD_ALT of main.py line 43. -/
def MOD_ALT : Nat := 0x0001

/-- MOD_CONTROL of main.py line 44. -/
def MOD_CONTROL : Nat := 0x0002

/-- MOD_SHIFT of main.py line 45. -/
def MOD_SHIFT : Nat := 0x0004

/-- MOD_WIN of main.py line 46. -/
def MOD_WIN : Nat := 0x0008

/-- VK_MAP of main.py lines 49-58: the named keys, then f1..f24
mapped to 0x70 + i - 1, then the lowercased letters and digits mapped
to the code point of their uppercase form.  Modelled as an association
list; all keys are distinct, so lookup order does not matter. -/
def VK_MAP : List (String × Nat) :=
  [("space", 0x20), ("tab", 0x09), ("escape", 0x1B), ("esc", 0x1B), ("enter", 0x0D)]
    ++ (List.range 24).map (fun i => ("f" ++ toString (i + 1), 0x70 + i))
    ++ "ABCDEFGHIJKLMNOPQRSTUVWXYZ0123456789".toList.map
        (fun c => (String.mk [c.toLower], c.toNat))

/-- VK_MAP.get(p) of main.py line 84: association-list lookup. -/
def vk_get (p : String) : Option Nat :=
  (VK_MAP.find? (fun kv => kv.fst == p)).map Prod.snd

/-- Python s.split("+") on the character list: splits into groups at
every plus sign, keeping empty groups. -/
def splitPlus : List Char → List (List Char)
  | [] => [[]]
  | '+' :: cs => [] :: splitPlus cs
  | c :: cs =>
      match splitPlus cs with
      | [] => [[c]]
      | g :: gs => (c :: g) :: gs

/-- Python str.strip(): drop whitespace from both ends. -/
def strip (cs : List Char) : List Char :=
  ((cs.dropWhile Char.isWhitespace).reverse.dropWhile Char.isWhitespace).reverse

/-- Python str.lower() on a character list (ASCII, which covers every
token the parser recognizes). -/
def lower (cs : List Char) : List Char :=
  cs.map Char.toLower

/-- The list comprehension of main.py line 71:
parts = [p.strip().lower() for p in s.split("+") if p.strip()]. -/
def split_parts (s : String) : List String :=
  ((splitPlus s.toList).map (fun cs => String.mk (lower (strip cs)))).filter
    (fun p => p != "")

/-- The loop body of parse_hotkey, main.py lines 72-85: modifier tokens
OR their flag into mods; any other token p overwrites key with
VK_MAP.get(p), which is None when p is not in the table. -/
def parse_hotkey_aux : List String → Nat → Option Nat → Nat × Option Nat
  | [], mods, key => (mods, key)
  | p :: ps, mods, key =>
      if p = "ctrl" ∨ p = "control" then parse_hotkey_aux ps (mods ||| MOD_CONTROL) key
      else if p = "alt" then parse_hotkey_aux ps (mods ||| MOD_ALT) key
      else if p = "shift" then parse_hotkey_aux ps (mods ||| MOD_SHIFT) key
      else if p = "win" ∨ p = "meta" ∨ p = "super" then parse_hotkey_aux ps (mods ||| MOD_WIN) key
      else parse_hotkey_aux ps mods (vk_get p)

/-- parse_hotkey of main.py lines 70-85.  The Python function returns
(mods, key) where mods is always an int and key is an int or None. -/
def parse_hotkey (s : String) : Nat × Option Nat :=
  parse_hotkey_aux (split_parts s) 0 none

/-- The registration guard of main.py line 598: a spec is usable only
when parse_hotkey produced a base key (mods, being an int, is never
None there). -/
def hotkey_spec_ok (s : String) : Bool :=
  (parse_hotkey s).snd.isSome

/-- True exactly on the tokens the parser treats as modifiers
(main.py lines 75-82). -/
def is_mod_token (p : String) : Bool :=
  p == "ctrl" || p == "control" || p == "alt" || p == "shift"
    || p == "win" || p == "meta" || p == "super"

/-- Specification-side reading of the key-resolution loop: the base key
produced from a token list is the VK_MAP lookup of the last
non-modifier token, or the initial value when every token is a
modifier. -/
def last_lookup (k : Option Nat) : List String → Option Nat
  | [] => k
  | p :: ps => if is_mod_token p then last_lookup k ps else last_lookup (vk_get p) ps

/- ----------------------------------------------------------------
   Application state (the mutable fields of the QuickGPT object,
   main.py lines 565-623, plus the popup visibility and the
   observable effects of persistence and of starting worker threads)
   ---------------------------------------------------------------- -/

/-- The state the handlers of main.py mutate.
working, show_system, messages, transcript and model are the fields of
the QuickGPT object (lines 572-577, 589).  visible is the Qt window
state read by popup.isVisible() and written by show_bottom_right /
hide_with_anim / hide.  saved models the content of the history file
written by _save_history (none before any write; persistence failures
are swallowed by the code and are outside this model).  sentRequests
records, per started Worker, the message list and model it was given
(lines 656-657).  activeThreads counts QThreads that were started and
whose Worker has not yet emitted finished or error. -/
structure AppState where
  working : Bool
  visible : Bool
  show_system : Bool
  messages : List ChatTurn
  transcript : List (Speaker × String)
  model : String
  saved : Option (List ChatTurn × String)
  sentRequests : List (List ChatTurn × String)
  activeThreads : Nat
  deriving DecidableEq

/-- The state right after QuickGPT.__init__ with no history file on
disk and no environment overrides: working False (line 572),
show_system True (line 573), empty transcript and messages, model
"gpt-5" (DEFAULT_MODEL, line 63), popup constructed but not shown. -/
def init : AppState :=
  ⟨false, false, true, [], [], "gpt-5", none, [], 0⟩

/-- QuickGPT._append_line (main.py lines 735-737): push one
(speaker, text) pair onto transcript (the re-render is view-only). -/
def append_line (who : Speaker) (text : String) (s : AppState) : AppState :=
  { s with transcript := s.transcript ++ [(who, text)] }

/-- QuickGPT._append_user (main.py lines 739-741). -/
def append_user (text : String) (s : AppState) : AppState :=
  append_line Speaker.You text
    { s with messages := s.messages ++ [⟨Role.user, text⟩] }

/-- QuickGPT._append_assistant (main.py lines 743-745). -/
def append_assistant (text : String) (s : AppState) : AppState :=
  append_line Speaker.Assistant text
    { s with messages := s.messages ++ [⟨Role.assistant, text⟩] }

/-- QuickGPT._append_system (main.py lines 747-748). -/
def append_system (text : String) (s : AppState) : AppState :=
  append_line Speaker.System text s

/-- QuickGPT._save_history (main.py lines 724-732): write the full
messages list and the current model to the history file. -/
def save_history (s : AppState) : AppState :=
  { s with saved := some (s.messages, s.model) }

/-- The placeholder text appended by _ask_assistant (main.py line 655)
and matched by _remove_last_system_placeholder (line 753). -/
def thinkingText : String := "Thinking…"

/-- The match condition of _remove_last_system_placeholder
(main.py line 753): a System line whose text is the placeholder. -/
def is_placeholder (d : Speaker × String) : Bool :=
  d.fst == Speaker.System && d.snd == thinkingText

/-- Remove the last element satisfying p, if any: the loop of
_remove_last_system_placeholder (main.py lines 750-756), which scans
from the end and deletes the first hit. -/
def removeLast {α : Type} (p : α → Bool) : List α → List α
  | [] => []
  | x :: xs =>
      if xs.any p then x :: removeLast p xs
      else if p x then xs
      else x :: xs

/-- QuickGPT._remove_last_system_placeholder (main.py lines 750-756). -/
def remove_last_system_placeholder (s : AppState) : AppState :=
  { s with transcript := removeLast is_placeholder s.transcript }

/-- The fixed system persona turn prepended by _ask_assistant
(main.py line 656). -/
def systemTurn : ChatTurn :=
  ⟨Role.system,
   "You are a concise, helpful assistant. Your name is QuickGPT. Avoid typing long paragraphs in one go. Quick, concise sentences are best."⟩

/-- QuickGPT._ask_assistant (main.py lines 652-666): set working,
append the ephemeral placeholder line, build the upstream message list
as the system turn followed by self.messages[-20:] (modelled as
List.drop of length - 20, which is the whole list when it is shorter
than 20), hand it to a fresh Worker and start that worker on a new
QThread. -/
def ask_assistant (s : AppState) : AppState :=
  let s1 := append_system thinkingText { s with working := true }
  let req := systemTurn :: s1.messages.drop (s1.messages.length - 20)
  { s1 with
    sentRequests := s1.sentRequests ++ [(req, s1.model)],
    activeThreads := s1.activeThreads + 1 }

/-- QuickGPT._handle_user_message (main.py lines 645-650): append the
user turn, persist, start the request.  Note: it does not consult
working. -/
def handle_user_message (text : String) (s : AppState) : AppState :=
  ask_assistant (save_history (append_user text s))

/-- QuickGPT._on_reply (main.py lines 668-684): retract the
placeholder, append the assistant turn, persist, clear working, and
tear down the finished worker thread. -/
def on_reply (reply : String) (s : AppState) : AppState :=
  let s1 := save_history (append_assistant reply (remove_last_system_placeholder s))
  { s1 with working := false, activeThreads := s1.activeThreads - 1 }

/-- QuickGPT._on_error (main.py lines 686-701): retract the
placeholder, append one system error line to the display, clear
working, tear down the finished worker thread; messages and the
history file are untouched and nothing is retried. -/
def on_error (err : String) (s : AppState) : AppState :=
  let s1 := append_system ("Error: " ++ err) (remove_last_system_placeholder s)
  { s1 with working := false, activeThreads := s1.activeThreads - 1 }

/-- ChatPopup.show_bottom_right (main.py lines 378-415), as far as
state goes: the popup becomes visible. -/
def show_bottom_right (s : AppState) : AppState :=
  { s with visible := true }

/-- ChatPopup.hide_with_anim (main.py lines 417-443): the popup
becomes hidden.  Invoked by the close button (line 289), by Escape in
the input event filter (lines 454-455), and by SystemTray.toggle. -/
def hide_with_anim (s : AppState) : AppState :=
  { s with visible := false }

/-- SystemTray.toggle (main.py lines 534-538): unconditionally hide a
visible popup or show a hidden one; it never consults working. -/
def tray_toggle (s : AppState) : AppState :=
  if s.visible then hide_with_anim s else show_bottom_right s

/-- QuickGPT._toggle_popup (main.py lines 636-642), the hotkey path:
refuse to act while working and visible, otherwise defer to
SystemTray.toggle via a zero-delay timer. -/
def toggle_popup (s : AppState) : AppState :=
  if s.working && s.visible then s else tray_toggle s

/-- QuickGPT._clear_chat (main.py lines 772-777): empty messages and
transcript, clear the output widget, append the "History cleared."
system notice, persist. -/
def clear_chat (s : AppState) : AppState :=
  save_history (append_system "History cleared." { s with messages := [], transcript := [] })

/-- QuickGPT._on_model_changed (main.py lines 766-769): record the new
model and persist promptly. -/
def on_model_changed (m : String) (s : AppState) : AppState :=
  save_history { s with model := m }

/- ----------------------------------------------------------------
   Event model: the interaction-thread events that can reach the
   handlers above, with the availability conditions the Qt UI imposes
   (a hidden popup receives no key events and emits no submitted
   signal; a Worker outcome can only arrive from a started thread).
   ---------------------------------------------------------------- -/

/-- One interaction-thread event. -/
inductive Event where
  | hotkeyToggle
  | trayToggle
  | escape
  | closeBtn
  | submit (text : String)
  | onReply (reply : String)
  | onError (err : String)
  | clearChat
  | setModel (m : String)
  deriving DecidableEq

/-- Dispatch one event to the handler main.py connects it to.
hotkeyToggle is _on_hotkey -> _toggle_popup; trayToggle is the tray
menu / tray click -> SystemTray.toggle; escape and closeBtn reach
hide_with_anim only while the popup is visible; submit is the
popup.submitted signal, only emittable from the visible popup; the
Worker outcome signals require a started, unfinished thread. -/
def step (s : AppState) : Event → AppState
  | Event.hotkeyToggle => toggle_popup s
  | Event.trayToggle => tray_toggle s
  | Event.escape => if s.visible then hide_with_anim s else s
  | Event.closeBtn => if s.visible then hide_with_anim s else s
  | Event.submit t => if s.visible then handle_user_message t s else s
  | Event.onReply r => if 0 < s.activeThreads then on_reply r s else s
  | Event.onError e => if 0 < s.activeThreads then on_error e s else s
  | Event.clearChat => clear_chat s
  | Event.setModel m => on_model_changed m s

/-- Run a sequence of events from a state. -/
def run : AppState → List Event → AppState
  | s, [] => s
  | s, e :: es => run (step s e) es

/-- Events other than the three that hide the popup without consulting
working (Escape, the close button, and the tray toggle). -/
def allowedEvent : Event → Bool
  | Event.escape => false
  | Event.closeBtn => false
  | Event.trayToggle => false
  | _ => true

/- ----------------------------------------------------------------
   Helper lemmas
   ---------------------------------------------------------------- -/

/-- removeLast deletes exactly the final element of a list when that
element satisfies the predicate: retracting a trailing placeholder
restores the list that preceded it. -/
theorem removeLast_append_of_pos {α : Type} (p : α → Bool) (t : List α) (x : α)
    (hx : p x = true) : removeLast p (t ++ [x]) = t := by
  induction t with
  | nil => simp [removeLast, hx]
  | cons a t ih =>
      have hany : (t ++ [x]).any p = true := by simp [List.any_append, hx]
      simp [removeLast, hany, ih]

/-- The key component computed by the parse_hotkey loop is the
last_lookup of the token list: every non-modifier token overwrites the
key with its VK_MAP lookup, successful or not. -/
theorem parse_hotkey_aux_snd :
    ∀ (ps : List String) (m : Nat) (k : Option Nat),
      (parse_hotkey_aux ps m k).snd = last_lookup k ps := by
  intro ps
  induction ps with
  | nil => intro m k; rfl
  | cons p ps ih =>
      intro m k
      simp only [parse_hotkey_aux, last_lookup]
      by_cases h1 : p = "ctrl" ∨ p = "control"
      · have hm : is_mod_token p = true := by
          rcases h1 with h | h <;> simp [is_mod_token, h]
        rw [if_pos h1, if_pos hm, ih]
      · rw [if_neg h1]
        by_cases h2 : p = "alt"
        · have hm : is_mod_token p = true := by simp [is_mod_token, h2]
          rw [if_pos h2, if_pos hm, ih]
        · rw [if_neg h2]
          by_cases h3 : p = "shift"
          · have hm : is_mod_token p = true := by simp [is_mod_token, h3]
            rw [if_pos h3, if_pos hm, ih]
          · rw [if_neg h3]
            by_cases h4 : p = "win" ∨ p = "meta" ∨ p = "super"
            · have hm : is_mod_token p = true := by
                rcases h4 with h | h | h <;> simp [is_mod_token, h]
              rw [if_pos h4, if_pos hm, ih]
            · have hm : is_mod_token p = false := by
                push_neg at h1 h4
                simp [is_mod_token, h1.1, h1.2, h2, h3, h4.1, h4.2.1, h4.2.2]
              rw [if_neg h4, if_neg (by simp [hm]), ih]

/-- One step by an event other than Escape, the close button or the
tray toggle preserves the property that working implies visible. -/
theorem step_preserves_wv (s : AppState) (e : Event)
    (he : allowedEvent e = true) (h : s.working = true → s.visible = true) :
    (step s e).working = true → (step s e).visible = true := by
  cases e with
  | hotkeyToggle =>
      simp only [step, toggle_popup, tray_toggle, hide_with_anim, show_bottom_right]
      split_ifs with h1 h2
      · exact h
      · intro hw
        exfalso
        exact h1 (by simp_all)
      · intro _; rfl
  | trayToggle => simp [allowedEvent] at he
  | escape => simp [allowedEvent] at he
  | closeBtn => simp [allowedEvent] at he
  | submit t =>
      simp only [step]
      split_ifs with h1
      · intro _
        simpa [handle_user_message, ask_assistant, append_system, append_line,
               save_history, append_user] using h1
      · exact h
  | onReply r =>
      simp only [step]
      split_ifs with h1
      · intro hw
        exfalso
        simp [on_reply, save_history, append_assistant, append_line,
              remove_last_system_placeholder] at hw
      · exact h
  | onError e =>
      simp only [step]
      split_ifs with h1
      · intro hw
        exfalso
        simp [on_error, append_system, append_line,
              remove_last_system_placeholder] at hw
      · exact h
  | clearChat =>
      simp only [step, clear_chat, save_history, append_system, append_line]
      exact h
  | setModel m =>
      simp only [step, on_model_changed, save_history]
      exact h

/-- A run made of steps that never hide the popup behind the working
guard preserves the property that working implies visible. -/
theorem run_preserves_wv (es : List Event) :
    ∀ s : AppState, es.all allowedEvent = true →
      (s.working = true → s.visible = true) →
      ((run s es).working = true → (run s es).visible = true) := by
  induction es with
  | nil => intro s _ h; exact h
  | cons e es ih =>
      intro s hall h
      rw [List.all_cons, Bool.and_eq_true] at hall
      exact ih (step s e) hall.2 (step_preserves_wv s e hall.1 h)

/- ----------------------------------------------------------------
   Claim theorems
   ---------------------------------------------------------------- -/

/-- Claim C1: the claim states that while working is true a further
submit does not start a second background request.  The code gates
only the toggle on working, not submission: after showing the popup
and submitting once, a second submit issued while the first request is
still in flight runs _handle_user_message again, which starts a second
Worker on a second QThread.  This theorem evaluates the code at that
failing input: two started worker threads are active at once and two
upstream requests have been issued while working is still true. -/
theorem C1_second_submit_starts_second_thread :
    (run init [Event.hotkeyToggle, Event.submit "a", Event.submit "b"]).working = true
      ∧ (run init [Event.hotkeyToggle, Event.submit "a", Event.submit "b"]).activeThreads = 2
      ∧ (run init [Event.hotkeyToggle, Event.submit "a",
                   Event.submit "b"]).sentRequests.length = 2 := by
  decide

/-- Claim C2, counterexample: the claim states that a toggle request
(hotkey or tray) issued while working is true never changes
visibility.  The tray toggle never consults working: in the reachable
state with working true and the popup visible, one tray toggle hides
the popup. -/
theorem C2_tray_toggle_hides_while_working :
    (run init [Event.trayToggle, Event.submit "a"]).working = true
      ∧ (run init [Event.trayToggle, Event.submit "a"]).visible = true
      ∧ (step (run init [Event.trayToggle, Event.submit "a"]) Event.trayToggle).visible
          = false := by
  decide

/-- Claim C2, amended: while working is true and the popup is visible,
a hotkey toggle leaves the state, hence the visibility, unchanged; the
tray toggle is not gated by working and always flips visibility. -/
theorem C2_amended_hotkey_noop_tray_flips (s : AppState)
    (hw : s.working = true) (hv : s.visible = true) :
    step s Event.hotkeyToggle = s ∧ (step s Event.trayToggle).visible = !s.visible := by
  constructor
  · simp [step, toggle_popup, hw, hv]
  · simp [step, tray_toggle, hide_with_anim, show_bottom_right, hv]

/-- Witness for the amended claim C2, at the reachable state produced
by showing the popup and submitting once (working and visible both
true there). -/
theorem C2_amended_witness :
    step (run init [Event.trayToggle, Event.submit "x"]) Event.hotkeyToggle
        = run init [Event.trayToggle, Event.submit "x"]
      ∧ (step (run init [Event.trayToggle, Event.submit "x"]) Event.trayToggle).visible
        = !(run init [Event.trayToggle, Event.submit "x"]).visible :=
  C2_amended_hotkey_noop_tray_flips _ (by decide) (by decide)

/-- Claim C3, counterexample: the claim states that working implies
visible in every reachable state and that no user action, Escape
included, can hide the popup mid-request.  The Escape handler in the
input event filter calls hide_with_anim without consulting working:
showing the popup, submitting, then pressing Escape reaches a state
with working true and the popup hidden. -/
theorem C3_escape_hides_while_working :
    (run init [Event.hotkeyToggle, Event.submit "hi", Event.escape]).working = true
      ∧ (run init [Event.hotkeyToggle, Event.submit "hi", Event.escape]).visible
          = false := by
  decide

/-- Claim C3, amended: working implies visible in every state reached
from the initial state without Escape, close-button, or tray-toggle
events; those three actions hide the popup even while a request is in
flight. -/
theorem C3_amended_invariant (es : List Event)
    (h : es.all allowedEvent = true) :
    (run init es).working = true → (run init es).visible = true :=
  run_preserves_wv es init h (by decide)

/-- Witness for the amended claim C3, at the trace that shows the
popup by hotkey and submits once: working is true there and the
invariant yields visibility. -/
theorem C3_amended_witness :
    (run init [Event.hotkeyToggle, Event.submit "x"]).visible = true :=
  C3_amended_invariant [Event.hotkeyToggle, Event.submit "x"] (by decide) (by decide)

/-- Claim C4, counterexample: the claim states that the upstream turn
sequence never contains two consecutive user turns.  After submit of
"a", a failure, and submit of "b", the request sent upstream is the
system turn followed directly by the two user turns: the unanswered
user turn is immediately followed by the next one. -/
theorem C4_consecutive_user_turns_upstream :
    (run init [Event.hotkeyToggle, Event.submit "a", Event.onError "boom",
               Event.submit "b"]).sentRequests.getLast?
      = some ([systemTurn, ⟨Role.user, "a"⟩, ⟨Role.user, "b"⟩], "gpt-5") := by
  decide

/-- Claim C4, amended: a failure terminates working, appends no
assistant turn and retries nothing, and the unanswered user turn
remains stored, so the request issued by the next submit has that user
turn immediately followed by the new user turn. -/
theorem C4_amended_failure_keeps_unanswered_turn (s : AppState) (a e b : String) :
    (on_error e (handle_user_message a s)).working = false
      ∧ (on_error e (handle_user_message a s)).messages
          = s.messages ++ [ChatTurn.mk Role.user a]
      ∧ (on_error e (handle_user_message a s)).sentRequests
          = (handle_user_message a s).sentRequests
      ∧ ∃ p, (handle_user_message b (on_error e (handle_user_message a s))).sentRequests.getLast?
          = some (p ++ [ChatTurn.mk Role.user a, ChatTurn.mk Role.user b], s.model) := by
  refine ⟨rfl, rfl, rfl, ?_⟩
  refine ⟨systemTurn :: s.messages.drop ((s.messages.length + 2) - 20), ?_⟩
  have hsent : (handle_user_message b (on_error e (handle_user_message a s))).sentRequests
      = (on_error e (handle_user_message a s)).sentRequests
          ++ [(systemTurn ::
                ((s.messages ++ [ChatTurn.mk Role.user a] ++ [ChatTurn.mk Role.user b]).drop
                  ((s.messages ++ [ChatTurn.mk Role.user a]
                      ++ [ChatTurn.mk Role.user b]).length - 20)),
               s.model)] := rfl
  rw [hsent, List.getLast?_concat]
  have hk : (s.messages.length + 2) - 20 ≤ s.messages.length := by omega
  have hlen : (s.messages ++ [ChatTurn.mk Role.user a]
      ++ [ChatTurn.mk Role.user b] : List ChatTurn).length
      = s.messages.length + 2 := by simp
  have happ : (s.messages ++ [ChatTurn.mk Role.user a]
      ++ [ChatTurn.mk Role.user b] : List ChatTurn)
      = s.messages ++ [ChatTurn.mk Role.user a, ChatTurn.mk Role.user b] := by simp
  rw [hlen, happ, List.drop_append_of_le_length hk]
  rfl

/-- Claim C5: the message list handed to the worker is the fixed
system persona turn followed by the most recent 20 stored turns, in
their original oldest-first order (the slice is a suffix of the stored
sequence), the system turn not counting against the limit, and the
whole list has at most 21 entries however many turns accumulated. -/
theorem C5_upstream_request_shape (s : AppState) :
    (ask_assistant s).sentRequests
        = s.sentRequests
            ++ [(systemTurn :: s.messages.drop (s.messages.length - 20), s.model)]
      ∧ (systemTurn :: s.messages.drop (s.messages.length - 20)).length
          = 1 + min 20 s.messages.length
      ∧ (systemTurn :: s.messages.drop (s.messages.length - 20)).length ≤ 21
      ∧ s.messages.drop (s.messages.length - 20) <:+ s.messages := by
  refine ⟨rfl, ?_, ?_, List.drop_suffix _ _⟩
  · simp [List.length_drop]
    omega
  · simp [List.length_drop]
    omega

/-- Claim C6: after submitting user text x and receiving a success
outcome with text y, the stored turn sequence ends with the user turn
x followed by the assistant turn y, and the persisted file holds
exactly the stored sequence both right after the user append and right
after the assistant append (write-through). -/
theorem C6_success_appends_and_persists (s : AppState) (x y : String) :
    (handle_user_message x s).messages = s.messages ++ [ChatTurn.mk Role.user x]
      ∧ (handle_user_message x s).saved
          = some ((handle_user_message x s).messages, (handle_user_message x s).model)
      ∧ (on_reply y (handle_user_message x s)).messages
          = s.messages ++ [ChatTurn.mk Role.user x, ChatTurn.mk Role.assistant y]
      ∧ (on_reply y (handle_user_message x s)).saved
          = some ((on_reply y (handle_user_message x s)).messages,
                  (on_reply y (handle_user_message x s)).model) := by
  refine ⟨rfl, rfl, ?_, rfl⟩
  show (s.messages ++ [ChatTurn.mk Role.user x]) ++ [ChatTurn.mk Role.assistant y]
      = s.messages ++ [ChatTurn.mk Role.user x, ChatTurn.mk Role.assistant y]
  simp

/-- Claim C7: after a failure outcome no assistant turn is appended
(messages are untouched), working returns to false, the ephemeral
placeholder is retracted and exactly one system-visible error line is
appended to the display sequence, the persisted file is untouched and
no request is retried; the final conjunct checks that retracting
removes exactly a trailing placeholder. -/
theorem C7_failure_cleanup (s : AppState) (e : String) :
    (on_error e s).messages = s.messages
      ∧ (on_error e s).working = false
      ∧ (on_error e s).transcript
          = removeLast is_placeholder s.transcript ++ [(Speaker.System, "Error: " ++ e)]
      ∧ (on_error e s).saved = s.saved
      ∧ (on_error e s).sentRequests = s.sentRequests
      ∧ ∀ t : List (Speaker × String),
          removeLast is_placeholder (t ++ [(Speaker.System, thinkingText)]) = t := by
  refine ⟨rfl, rfl, rfl, rfl, rfl, fun t => removeLast_append_of_pos _ _ _ (by decide)⟩

/-- Claim C8, counterexample: the claim states that a token resolving
to nothing is silently dropped without affecting the result.  In the
code an unresolvable non-modifier token overwrites the base key with
the failed lookup: space alone resolves, but space+banana loses the
base key and is rejected. -/
theorem C8_unresolvable_token_clobbers_key :
    parse_hotkey "space" = (0, some 0x20)
      ∧ parse_hotkey "space+banana" = (0, none)
      ∧ parse_hotkey "space+banana" ≠ parse_hotkey "space" := by
  decide

/-- Claim C8, amended: parsing ORs the recognized modifier tokens into
the modifier set, and every non-modifier token replaces the base key
with its symbol-table lookup, successful or not, so the base key is
the lookup of the last non-modifier token; ctrl+alt+space yields
modifiers ctrl and alt with base key space, and a spec whose base key
does not resolve (banana, the empty string) is rejected as a
registration error. -/
theorem C8_amended_key_is_last_nonmod_lookup (s : String) :
    (parse_hotkey s).snd = last_lookup none (split_parts s)
      ∧ parse_hotkey "ctrl+alt+space" = (MOD_CONTROL ||| MOD_ALT, some 0x20)
      ∧ hotkey_spec_ok "ctrl+alt+space" = true
      ∧ hotkey_spec_ok "banana" = false
      ∧ hotkey_spec_ok "" = false :=
  ⟨parse_hotkey_aux_snd (split_parts s) 0 none, by decide, by decide, by decide, by decide⟩

/-- Claim C9, counterexample: the claim states that both sequences
become empty.  The clear handler empties both and then appends a
History cleared system notice to the display sequence, so the display
sequence is not empty afterwards. -/
theorem C9_display_not_empty_after_clear :
    (clear_chat (handle_user_message "hi" init)).messages = []
      ∧ (clear_chat (handle_user_message "hi" init)).transcript
          = [(Speaker.System, "History cleared.")]
      ∧ (clear_chat (handle_user_message "hi" init)).transcript
          ≠ ([] : List (Speaker × String)) := by
  decide

/-- Claim C9, amended: the clear command empties the ChatTurn
sequence, resets the DisplayLine sequence and then appends one History
cleared system notice (so the display holds exactly that one line),
and immediately rewrites the persisted file with an empty messages
array. -/
theorem C9_amended_clear (s : AppState) :
    (clear_chat s).messages = []
      ∧ (clear_chat s).transcript = [(Speaker.System, "History cleared.")]
      ∧ (clear_chat s).saved = some ([], s.model) :=
  ⟨rfl, rfl, rfl⟩

/-- Claim C10: clearing history leaves the model selection unchanged,
and the file rewritten by the clear still records that model next to
the now empty messages array. -/
theorem C10_clear_preserves_model (s : AppState) :
    (clear_chat s).model = s.model
      ∧ (clear_chat s).saved = some ([], s.model) :=
  ⟨rfl, rfl⟩

end QuickGPT
